import Mathlib

/-!
Verification of the GIZA token dashboard core (src/giza_dashboard.py):
the data-fetch-with-fallback pipeline of `GizaDataManager` and its ratio
calculator. Python floats are modelled as rationals, machine ints as `Int`;
the upstream HTTP interaction is modelled as an explicit outcome value
(exception, or a status code with a parsed JSON body), and the optional
JSON fields as `Option` values, mirroring each `dict.get(key, default)`
of the source.
-/

/-- The `TokenMetrics` dataclass of the source. -/
structure TokenMetrics where
  price : ℚ
  price_change_24h : ℚ
  price_change_7d : ℚ
  market_cap : ℚ
  volume_24h : ℚ
  circulating_supply : ℚ
  total_supply : ℚ
  fdv : ℚ
  ath : ℚ
  atl : ℚ
  rank : ℤ
deriving DecidableEq, Repr

/-- A JSON sub-object such as `current_price` that may carry a `usd` key. -/
structure UsdMap where
  usd : Option ℚ
deriving DecidableEq, Repr

/-- The empty dict `{}` used as the default of the outer `.get`. -/
def UsdMap.empty : UsdMap := ⟨none⟩

/-- `market_data.get(key, {}).get('usd', d)`: a missing sub-object and a
sub-object missing `usd` both yield the default `d`. -/
def getUsd (m : Option UsdMap) (d : ℚ) : ℚ :=
  ((m.getD UsdMap.empty).usd).getD d

/-- The `market_data` JSON object: every field the parser reads, each
possibly absent. -/
structure MarketData where
  current_price : Option UsdMap
  price_change_percentage_24h : Option ℚ
  price_change_percentage_7d : Option ℚ
  market_cap : Option UsdMap
  total_volume : Option UsdMap
  circulating_supply : Option ℚ
  total_supply : Option ℚ
  fully_diluted_valuation : Option UsdMap
  ath : Option UsdMap
  atl : Option UsdMap
deriving DecidableEq, Repr

/-- The empty dict `{}` used as the default for a missing `market_data`. -/
def MarketData.empty : MarketData :=
  ⟨none, none, none, none, none, none, none, none, none, none⟩

/-- The top-level JSON body of `/coins/giza`: the keys the parser reads. -/
structure CoinData where
  market_data : Option MarketData
  market_cap_rank : Option ℤ
deriving DecidableEq, Repr

/-- An empty JSON object `{}` as top-level body. -/
def CoinData.empty : CoinData := ⟨none, none⟩

/-- `GizaDataManager._get_demo_token_metrics`. -/
def get_demo_token_metrics : TokenMetrics :=
  { price := 0.172
    price_change_24h := -6.78
    price_change_7d := -5.10
    market_cap := 17950000
    volume_24h := 2620000
    circulating_supply := 104412580
    total_supply := 1000000000
    fdv := 172000000
    ath := 0.4953
    atl := 0.03672
    rank := 1319 }

/-- The `TokenMetrics(...)` construction of `get_token_metrics` on the
HTTP-200 path: each field read with `.get` and a per-field default. -/
def parseTokenMetrics (data : CoinData) : TokenMetrics :=
  let md := data.market_data.getD MarketData.empty
  { price := getUsd md.current_price 0.172
    price_change_24h := md.price_change_percentage_24h.getD (-6.78)
    price_change_7d := md.price_change_percentage_7d.getD (-5.10)
    market_cap := getUsd md.market_cap 17950000
    volume_24h := getUsd md.total_volume 2620000
    circulating_supply := md.circulating_supply.getD 104412580
    total_supply := md.total_supply.getD 1000000000
    fdv := getUsd md.fully_diluted_valuation 172000000
    ath := getUsd md.ath 0.4953
    atl := getUsd md.atl 0.03672
    rank := data.market_cap_rank.getD 1319 }

/-- Outcome of `requests.get(url, timeout=10)` followed by
`response.json()`: either an exception somewhere in the try block
(network error, timeout, malformed body) or a status code with the
parsed body. -/
inductive FetchOutcome where
  | exn : FetchOutcome
  | ok : ℤ → CoinData → FetchOutcome
deriving DecidableEq

/-- `GizaDataManager.get_token_metrics`: demo data when the requests
library is unavailable, on any exception, or on a non-200 status;
otherwise the per-field parse of the body. -/
def get_token_metrics (apiAvailable : Bool) (resp : FetchOutcome) : TokenMetrics :=
  if apiAvailable then
    match resp with
    | .exn => get_demo_token_metrics
    | .ok status data =>
        if status ≠ 200 then get_demo_token_metrics
        else parseTokenMetrics data
  else get_demo_token_metrics

/-- `get_token_metrics` together with whether the call emitted an
`st.warning` signal: the source warns on the non-200 branch and in the
exception handler, and nowhere on the parse path. -/
def get_token_metrics_warn (apiAvailable : Bool) (resp : FetchOutcome) :
    TokenMetrics × Bool :=
  if apiAvailable then
    match resp with
    | .exn => (get_demo_token_metrics, true)
    | .ok status data =>
        if status ≠ 200 then (get_demo_token_metrics, true)
        else (parseTokenMetrics data, false)
  else (get_demo_token_metrics, false)

/-- The mutable fields `GizaDataManager.__init__` sets up: a cache dict
and `cache_timeout = 300`. -/
structure GizaDataManager where
  cache : List (String × ℚ × TokenMetrics)
  cache_timeout : ℚ
deriving DecidableEq

/-- The state after `__init__`: empty cache, timeout 300. -/
def GizaDataManager.init : GizaDataManager := { cache := [], cache_timeout := 300 }

/-- One call to `get_token_metrics` as a transition on the manager state:
result, post-state, and the number of HTTP requests the call issued.
The source body never reads the clock `_now`, never reads `self.cache`
and never writes it; it issues exactly one `requests.get` whenever the
requests library is available (also on the paths where that request
fails or returns non-200). -/
def get_token_metrics_step (s : GizaDataManager) (_now : ℚ)
    (apiAvailable : Bool) (resp : FetchOutcome) :
    TokenMetrics × GizaDataManager × Nat :=
  if apiAvailable then (get_token_metrics true resp, s, 1)
  else (get_demo_token_metrics, s, 0)

/-- The dict returned by `calculate_metrics_ratios`. -/
structure Ratios where
  volume_to_mcap : ℚ
  circulating_ratio : ℚ
  price_vs_ath : ℚ
  price_vs_atl : ℚ
  market_cap_millions : ℚ
deriving DecidableEq, Repr

/-- `GizaDataManager.calculate_metrics_ratios`: all zeros for a `None`
argument (`if not metrics`); otherwise each ratio guarded by a
positivity (resp. truthiness) test on its denominator. -/
def calculate_metrics_ratios (metrics : Option TokenMetrics) : Ratios :=
  match metrics with
  | none => ⟨0, 0, 0, 0, 0⟩
  | some m =>
      { volume_to_mcap :=
          if m.market_cap > 0 then m.volume_24h / m.market_cap * 100 else 0
        circulating_ratio :=
          if m.total_supply > 0 then m.circulating_supply / m.total_supply * 100 else 0
        price_vs_ath :=
          if m.ath > 0 then (m.price / m.ath - 1) * 100 else 0
        price_vs_atl :=
          if m.atl > 0 then (m.price / m.atl - 1) * 100 else 0
        market_cap_millions :=
          if m.market_cap ≠ 0 then m.market_cap / 1000000 else 0 }

/-- A point of the price-history series built by `get_price_history`:
timestamp (upstream milliseconds; `pd.to_datetime(unit='ms')` is an
order-preserving injection, so ordering claims are unaffected), price
and volume. -/
structure PricePoint where
  timestamp : ℚ
  price : ℚ
  volume : ℚ
deriving DecidableEq, Repr

/-- The `/market_chart` body: parallel `[timestamp_ms, value]` series. -/
structure MarketChart where
  prices : List (ℚ × ℚ)
  total_volumes : List (ℚ × ℚ)
deriving DecidableEq, Repr

/-- The DataFrame built on the 200 path of `get_price_history`: rows are
the upstream `prices` pairs in upstream order, and the volume column is
`[v[1] for v in data['total_volumes']]`; assigning a column of a
different length raises in pandas (caught by the handler, falling back
to demo data), modelled as `none`. -/
def build_price_history (chart : MarketChart) : Option (List PricePoint) :=
  if chart.prices.length = chart.total_volumes.length then
    some ((chart.prices.zip chart.total_volumes).map
      (fun pv => ⟨pv.1.1, pv.1.2, pv.2.2⟩))
  else none

/-- Outcome of the `/market_chart` request. -/
inductive ChartFetchOutcome where
  | exn : ChartFetchOutcome
  | ok : ℤ → MarketChart → ChartFetchOutcome
deriving DecidableEq

/-- `GizaDataManager.get_price_history`: `none` stands for the demo
fallback branch (`_get_demo_price_history`, a wall-clock seeded random
walk outside the scope of the upstream-response claims); `some` is the
series parsed from the upstream body. -/
def get_price_history (apiAvailable : Bool) (resp : ChartFetchOutcome) :
    Option (List PricePoint) :=
  if apiAvailable then
    match resp with
    | .exn => none
    | .ok status chart =>
        if status ≠ 200 then none
        else build_price_history chart
  else none

/-- Modelled from the spec (§4.2): `marketCapToFdv = market_cap / fdv`
(0 if fdv == 0). No such ratio exists anywhere in the source;
`calculate_metrics_ratios` computes `market_cap_millions` instead. This
definition only serves to compare the spec's claimed ratio with the
code's outputs. -/
def spec_marketCapToFdv (m : TokenMetrics) : ℚ :=
  if m.fdv = 0 then 0 else m.market_cap / m.fdv

/-- The spec's TokenMetrics invariant (§3): every field outside the two
percent-change fields is non-negative, and total supply is at least
circulating supply. -/
def metricsInvariant (m : TokenMetrics) : Prop :=
  0 ≤ m.price ∧ 0 ≤ m.market_cap ∧ 0 ≤ m.volume_24h ∧
  0 ≤ m.circulating_supply ∧ 0 ≤ m.total_supply ∧ 0 ≤ m.fdv ∧
  0 ≤ m.ath ∧ 0 ≤ m.atl ∧ 0 ≤ m.rank ∧
  m.circulating_supply ≤ m.total_supply

instance (m : TokenMetrics) : Decidable (metricsInvariant m) := by
  unfold metricsInvariant; infer_instance

/-- A 200 body carrying only `market_data.current_price.usd = 1/2`, every
other field absent. -/
def mixedCoinData : CoinData :=
  { market_data := some { MarketData.empty with current_price := some ⟨some (1/2)⟩ }
    market_cap_rank := none }

/-- A 200 body with a negative market cap and circulating supply above
total supply. -/
def badCoinData : CoinData :=
  { market_data := some { MarketData.empty with
      market_cap := some ⟨some (-5)⟩
      circulating_supply := some 2
      total_supply := some 1 }
    market_cap_rank := none }

/-- The spec scenario metrics: market_cap 18,720,000, fdv 176,200,000,
other fields as in the demo set. -/
def m3a : TokenMetrics :=
  { get_demo_token_metrics with market_cap := 18720000, fdv := 176200000 }

/-- The same metrics with fdv zeroed. -/
def m3b : TokenMetrics :=
  { get_demo_token_metrics with market_cap := 18720000, fdv := 0 }

/-- Demo metrics with volume_24h 1 and market_cap 2. -/
def m4 : TokenMetrics :=
  { get_demo_token_metrics with volume_24h := 1, market_cap := 2 }

/-- Demo metrics with price 0.1762 and ath 0.49 (the spec scenario). -/
def m5 : TokenMetrics :=
  { get_demo_token_metrics with price := 0.1762, ath := 0.49 }

/-- Metrics whose four guarded denominators are all zero. -/
def m6 : TokenMetrics := ⟨1, 0, 0, 0, 5, 3, 0, 2, 0, 0, 1⟩

/-- An upstream chart whose price series is not in increasing timestamp
order. -/
def unsortedChart : MarketChart := ⟨[(2, 1), (1, 1)], [(2, 5), (1, 5)]⟩

/-- A `/coins/giza` body with every parsed field present. -/
def fullCoinData (p c24 c7d mc v cs ts f a l : ℚ) (rk : ℤ) : CoinData :=
  { market_data := some
      { current_price := some ⟨some p⟩
        price_change_percentage_24h := some c24
        price_change_percentage_7d := some c7d
        market_cap := some ⟨some mc⟩
        total_volume := some ⟨some v⟩
        circulating_supply := some cs
        total_supply := some ts
        fully_diluted_valuation := some ⟨some f⟩
        ath := some ⟨some a⟩
        atl := some ⟨some l⟩ }
    market_cap_rank := some rk }

/-- C1: two `get_token_metrics` calls 100 time units apart — within the
TTL of 300 set by `__init__` — each issue one HTTP request (two for the
pair, where the claim says one), and the cache is still empty after
both: the body never reads or stores a cache entry. -/
theorem C1_cache_unused :
    (get_token_metrics_step GizaDataManager.init 0 true (.ok 200 CoinData.empty)).2.2 = 1
  ∧ (get_token_metrics_step
        (get_token_metrics_step GizaDataManager.init 0 true (.ok 200 CoinData.empty)).2.1
        100 true (.ok 200 CoinData.empty)).2.2 = 1
  ∧ (get_token_metrics_step
        (get_token_metrics_step GizaDataManager.init 0 true (.ok 200 CoinData.empty)).2.1
        100 true (.ok 200 CoinData.empty)).2.1.cache = []
  ∧ (100 : ℚ) - 0 < GizaDataManager.init.cache_timeout := by
  norm_num [get_token_metrics_step, GizaDataManager.init]

/-- C2 counterexample: a 200 response with only the price field present
does not yield the demo set — the present field is kept and only the
missing ones default. -/
theorem C2_counterexample :
    get_token_metrics true (.ok 200 mixedCoinData) ≠ get_demo_token_metrics := by
  norm_num [get_token_metrics, parseTokenMetrics, getUsd, mixedCoinData,
    MarketData.empty, UsdMap.empty, get_demo_token_metrics, TokenMetrics.mk.injEq]

/-- C2 (amended): exceptions and non-200 statuses yield exactly the demo
set and never raise; a 200 body missing every field also yields the demo
set; but a field present in a 200 body is kept (a per-field mix, not the
fixed demo set). -/
theorem C2_failure_fallbacks :
    get_token_metrics true .exn = get_demo_token_metrics
  ∧ (∀ (s : ℤ) (d : CoinData), s ≠ 200 →
        get_token_metrics true (.ok s d) = get_demo_token_metrics)
  ∧ (∀ d : CoinData, d.market_data = none → d.market_cap_rank = none →
        get_token_metrics true (.ok 200 d) = get_demo_token_metrics)
  ∧ (∀ (d : CoinData) (md : MarketData) (um : UsdMap) (p : ℚ),
        d.market_data = some md → md.current_price = some um → um.usd = some p →
        (get_token_metrics true (.ok 200 d)).price = p) := by
  refine ⟨rfl, ?_, ?_, ?_⟩
  · intro s d h
    simp [get_token_metrics, h]
  · rintro ⟨mdo, rko⟩ h1 h2
    have h1' : mdo = none := h1
    have h2' : rko = none := h2
    subst h1'; subst h2'
    rfl
  · rintro d md um p h1 h2 h3
    show (parseTokenMetrics d).price = p
    simp [parseTokenMetrics, getUsd, h1, h2, h3]

/-- C2 witness: the three fallback branches and the per-field mix at
concrete inputs. -/
theorem C2_failure_fallbacks_witness :
    get_token_metrics true .exn = get_demo_token_metrics
  ∧ get_token_metrics true (.ok 404 CoinData.empty) = get_demo_token_metrics
  ∧ get_token_metrics true (.ok 200 CoinData.empty) = get_demo_token_metrics
  ∧ (get_token_metrics true (.ok 200 mixedCoinData)).price = 1/2 := by
  have h := C2_failure_fallbacks
  exact ⟨h.1, h.2.1 404 CoinData.empty (by decide), h.2.2.1 CoinData.empty rfl rfl,
    h.2.2.2 mixedCoinData _ _ _ rfl rfl rfl⟩

/-- C3 counterexample: `calculate_metrics_ratios` is unchanged when fdv
moves from 176,200,000 to 0, while the claimed marketCapToFdv would move
from ≈0.1062 to 0; and at the spec scenario no output of the calculator
equals the claimed ratio. The code computes no market-cap-to-FDV ratio. -/
theorem C3_counterexample :
    calculate_metrics_ratios (some m3a) = calculate_metrics_ratios (some m3b)
  ∧ spec_marketCapToFdv m3a ≠ spec_marketCapToFdv m3b
  ∧ (calculate_metrics_ratios (some m3a)).volume_to_mcap ≠ spec_marketCapToFdv m3a
  ∧ (calculate_metrics_ratios (some m3a)).circulating_ratio ≠ spec_marketCapToFdv m3a
  ∧ (calculate_metrics_ratios (some m3a)).price_vs_ath ≠ spec_marketCapToFdv m3a
  ∧ (calculate_metrics_ratios (some m3a)).price_vs_atl ≠ spec_marketCapToFdv m3a
  ∧ (calculate_metrics_ratios (some m3a)).market_cap_millions ≠ spec_marketCapToFdv m3a := by
  norm_num [calculate_metrics_ratios, spec_marketCapToFdv, m3a, m3b,
    get_demo_token_metrics, Ratios.mk.injEq]

/-- C3 (amended): the calculator's output does not depend on fdv; its
fifth entry is `market_cap_millions = market_cap / 1,000,000` (0 when
market_cap = 0), which at the scenario's market_cap of 18,720,000 is
18.72. -/
theorem C3_no_fdv_ratio (m : TokenMetrics) (q : ℚ) :
    calculate_metrics_ratios (some { m with fdv := q }) = calculate_metrics_ratios (some m)
  ∧ (calculate_metrics_ratios (some m)).market_cap_millions
      = (if m.market_cap = 0 then 0 else m.market_cap / 1000000)
  ∧ (calculate_metrics_ratios (some m3a)).market_cap_millions = 18.72 := by
  refine ⟨rfl, ?_, by norm_num [calculate_metrics_ratios, m3a, get_demo_token_metrics]⟩
  by_cases h : m.market_cap = 0 <;> simp [calculate_metrics_ratios, h]

/-- C4 counterexample: with volume 1 and market cap 2 the computed
volume_to_mcap is 50, not the raw quotient 1/2. -/
theorem C4_counterexample :
    (calculate_metrics_ratios (some m4)).volume_to_mcap
      ≠ m4.volume_24h / m4.market_cap := by
  norm_num [calculate_metrics_ratios, m4, get_demo_token_metrics]

/-- C4 (amended): volume_to_mcap is the percentage
`volume_24h / market_cap * 100` when market_cap > 0, and 0 otherwise
(in particular when market_cap = 0). -/
theorem C4_volume_to_mcap (m : TokenMetrics) :
    (calculate_metrics_ratios (some m)).volume_to_mcap
      = if 0 < m.market_cap then m.volume_24h / m.market_cap * 100 else 0 := rfl

/-- C5 counterexample: at price 0.1762, ath 0.49 the computed
price_vs_ath is −3138/49 ≈ −64.04, not the raw value
price/ath − 1 ≈ −0.6404. -/
theorem C5_counterexample :
    (calculate_metrics_ratios (some m5)).price_vs_ath ≠ m5.price / m5.ath - 1
  ∧ (calculate_metrics_ratios (some m5)).price_vs_ath = -3138 / 49 := by
  norm_num [calculate_metrics_ratios, m5, get_demo_token_metrics]

/-- C5 (amended): price_vs_ath is the percentage
`(price / ath − 1) * 100` when ath > 0 and 0 otherwise; at the spec
scenario (price 0.1762, ath 0.49) it is −3138/49 ≈ −64.04. -/
theorem C5_price_vs_ath (m : TokenMetrics) :
    ((calculate_metrics_ratios (some m)).price_vs_ath
      = if 0 < m.ath then (m.price / m.ath - 1) * 100 else 0)
  ∧ (calculate_metrics_ratios (some m5)).price_vs_ath = -3138 / 49 :=
  ⟨rfl, by norm_num [calculate_metrics_ratios, m5, get_demo_token_metrics]⟩

/-- C6 counterexample: on metrics with fdv = 0 (and every other
denominator positive) the claimed marketCapToFdv guard would yield 0,
but no output of `calculate_metrics_ratios` is 0 there — the calculator
computes no ratio whose denominator is fdv (its fifth output,
`market_cap_millions`, divides by the constant 1,000,000 and is 18.72
here). -/
theorem C6_counterexample :
    m3b.fdv = 0
  ∧ spec_marketCapToFdv m3b = 0
  ∧ (calculate_metrics_ratios (some m3b)).volume_to_mcap ≠ 0
  ∧ (calculate_metrics_ratios (some m3b)).circulating_ratio ≠ 0
  ∧ (calculate_metrics_ratios (some m3b)).price_vs_ath ≠ 0
  ∧ (calculate_metrics_ratios (some m3b)).price_vs_atl ≠ 0
  ∧ (calculate_metrics_ratios (some m3b)).market_cap_millions ≠ 0 := by
  norm_num [calculate_metrics_ratios, spec_marketCapToFdv, m3b, get_demo_token_metrics]

/-- C6 (amended): every ratio `calculate_metrics_ratios` actually
computes with a guarded division — volume_to_mcap, circulating_ratio,
price_vs_ath, price_vs_atl — is exactly 0 when its denominator is 0;
the calculator has no marketCapToFdv, and its fifth output,
market_cap_millions (constant denominator 1,000,000), is 0 when
market_cap is 0. The embedding is a total function, so no division
error can occur on any input. -/
theorem C6_zero_guards (m : TokenMetrics) :
    (m.market_cap = 0 → (calculate_metrics_ratios (some m)).volume_to_mcap = 0)
  ∧ (m.total_supply = 0 → (calculate_metrics_ratios (some m)).circulating_ratio = 0)
  ∧ (m.ath = 0 → (calculate_metrics_ratios (some m)).price_vs_ath = 0)
  ∧ (m.atl = 0 → (calculate_metrics_ratios (some m)).price_vs_atl = 0)
  ∧ (m.market_cap = 0 → (calculate_metrics_ratios (some m)).market_cap_millions = 0) := by
  refine ⟨fun h => ?_, fun h => ?_, fun h => ?_, fun h => ?_, fun h => ?_⟩ <;>
    simp [calculate_metrics_ratios, h]

/-- C6 witness: all guards fire on metrics whose denominators are zero. -/
theorem C6_zero_guards_witness :
    (calculate_metrics_ratios (some m6)).volume_to_mcap = 0
  ∧ (calculate_metrics_ratios (some m6)).circulating_ratio = 0
  ∧ (calculate_metrics_ratios (some m6)).price_vs_ath = 0
  ∧ (calculate_metrics_ratios (some m6)).price_vs_atl = 0
  ∧ (calculate_metrics_ratios (some m6)).market_cap_millions = 0 := by
  have h := C6_zero_guards m6
  exact ⟨h.1 rfl, h.2.1 rfl, h.2.2.1 rfl, h.2.2.2.1 rfl, h.2.2.2.2 rfl⟩

/-- C7: on a 200 response with every field present, every field of the
returned TokenMetrics equals the corresponding payload value exactly. -/
theorem C7_roundtrip (p c24 c7d mc v cs ts f a l : ℚ) (rk : ℤ) :
    get_token_metrics true (.ok 200 (fullCoinData p c24 c7d mc v cs ts f a l rk))
      = ⟨p, c24, c7d, mc, v, cs, ts, f, a, l, rk⟩ := rfl

/-- C8 counterexample: an upstream series with timestamps [2, 1] is
returned in that order — the code never sorts, so the output is not
strictly increasing. -/
theorem C8_counterexample :
    get_price_history true (.ok 200 unsortedChart)
      = some [⟨2, 1, 5⟩, ⟨1, 1, 5⟩]
  ∧ ¬ List.Chain' (fun a b : PricePoint => a.timestamp < b.timestamp)
      [(⟨2, 1, 5⟩ : PricePoint), ⟨1, 1, 5⟩] := by
  refine ⟨rfl, ?_⟩
  norm_num [List.chain'_cons, List.chain'_singleton]

/-- C8 (amended): on a 200 response with price and volume series of
equal length, the output's timestamps equal the upstream price-series
timestamps in the upstream order, and its length equals the upstream
length; it is therefore strictly increasing exactly when the upstream
series is. -/
theorem C8_preserves_upstream (chart : MarketChart)
    (h : chart.prices.length = chart.total_volumes.length) :
    ∃ l : List PricePoint,
      get_price_history true (.ok 200 chart) = some l
      ∧ l.map PricePoint.timestamp = chart.prices.map Prod.fst
      ∧ l.length = chart.prices.length := by
  refine ⟨(chart.prices.zip chart.total_volumes).map
    (fun pv => ⟨pv.1.1, pv.1.2, pv.2.2⟩), ?_, ?_, ?_⟩
  · simp [get_price_history, build_price_history, h]
  · calc ((chart.prices.zip chart.total_volumes).map
          (fun pv => (⟨pv.1.1, pv.1.2, pv.2.2⟩ : PricePoint))).map PricePoint.timestamp
        = ((chart.prices.zip chart.total_volumes).map Prod.fst).map Prod.fst := by
          simp [List.map_map]
      _ = chart.prices.map Prod.fst := by
          rw [List.map_fst_zip chart.prices chart.total_volumes (le_of_eq h)]
  · simp [List.length_zip, h]

/-- C8 witness: a one-point chart with matching series lengths. -/
theorem C8_preserves_upstream_witness :
    (⟨[(1, 2)], [(1, 3)]⟩ : MarketChart).prices.length
      = (⟨[(1, 2)], [(1, 3)]⟩ : MarketChart).total_volumes.length
  ∧ ∃ l : List PricePoint,
      get_price_history true (.ok 200 ⟨[(1, 2)], [(1, 3)]⟩) = some l
      ∧ l.map PricePoint.timestamp
          = (⟨[(1, 2)], [(1, 3)]⟩ : MarketChart).prices.map Prod.fst
      ∧ l.length = (⟨[(1, 2)], [(1, 3)]⟩ : MarketChart).prices.length :=
  ⟨rfl, C8_preserves_upstream ⟨[(1, 2)], [(1, 3)]⟩ rfl⟩

/-- C9 counterexample: a 200 body with market cap −5 and circulating
supply above total supply is returned unvalidated, with no warning
emitted on the parse path. -/
theorem C9_counterexample :
    (get_token_metrics_warn true (.ok 200 badCoinData)).2 = false
  ∧ (get_token_metrics_warn true (.ok 200 badCoinData)).1.market_cap < 0
  ∧ (get_token_metrics_warn true (.ok 200 badCoinData)).1.total_supply
      < (get_token_metrics_warn true (.ok 200 badCoinData)).1.circulating_supply := by
  norm_num [get_token_metrics_warn, parseTokenMetrics, getUsd, badCoinData,
    MarketData.empty, UsdMap.empty]

/-- C9 (amended): the demo set — hence the result of every failure
path — satisfies the invariants (non-percent-change fields non-negative,
total supply ≥ circulating supply); the success path copies payload
values without validation. -/
theorem C9_demo_invariants :
    metricsInvariant get_demo_token_metrics
  ∧ (∀ (s : ℤ) (d : CoinData), s ≠ 200 →
        metricsInvariant (get_token_metrics true (.ok s d)))
  ∧ metricsInvariant (get_token_metrics true .exn) := by
  refine ⟨by norm_num [metricsInvariant, get_demo_token_metrics],
    ?_, by norm_num [metricsInvariant, get_token_metrics, get_demo_token_metrics]⟩
  intro s d h
  have hd : get_token_metrics true (.ok s d) = get_demo_token_metrics := by
    simp [get_token_metrics, h]
  rw [hd]
  norm_num [metricsInvariant, get_demo_token_metrics]

/-- C9 witness: the invariants hold on the demo set and on a 404. -/
theorem C9_demo_invariants_witness :
    metricsInvariant get_demo_token_metrics
  ∧ metricsInvariant (get_token_metrics true (.ok 404 CoinData.empty))
  ∧ metricsInvariant (get_token_metrics true .exn) := by
  have h := C9_demo_invariants
  exact ⟨h.1, h.2.1 404 CoinData.empty (by decide), h.2.2⟩

/-- C10: a 200 response whose body is the empty JSON object parses to a
TokenMetrics equal field-for-field to the demo fallback, because every
per-field default equals the corresponding demo value. -/
theorem C10_empty_payload_equals_demo :
    get_token_metrics true (.ok 200 CoinData.empty) = get_demo_token_metrics := rfl
